import Mathlib

/-!
Jayade Dental Clinic API: a shallow embedding of `server.js`.

The Express handlers of `server.js` and the Mongoose schemas of
`models/Appointment.js` and `models/Enquiry.js` become pure functions over an
explicit store state.  Every handler has the shape

  `Store → request → Store × Response`

with the outside world passed in explicitly:

* `Env`    : what the world decides during one request (does a store query
             reject, does a store write reject, what time is it);
* `Hasher` : the two bcrypt primitives `hash` and `compare`;
* `secret` : `process.env.JWT_SECRET` (startup lets the server listen only when
             it is set, but the handlers are modelled for every value).

A rejected promise inside a handler is an `Except.error`, which the handler's
`catch` turns into the 500 response, exactly as in the source.

Request body fields are JSON strings or absent (`Option String`); the guard
`!x` of the source is `falsy x`.  The password of a login body is a `Value`,
any JSON value, since `bcrypt.compare` tells strings from other values.
-/

namespace Clinic

/-! ## Data model -/

/-- The three roles of the system (`'patient'`, `'doctor'`, `'admin'`). -/
inductive Role where
  | patient
  | doctor
  | admin
deriving DecidableEq, Repr

/-- A destructured body field: `none` is `undefined`, `some v` a JSON string. -/
abbrev Field := Option String

/-- JavaScript `!x` on a string-or-undefined value. -/
def falsy : Field → Bool
  | none => true
  | some v => v == ""

/-- The string held by a field that passed the `!x` guard. -/
def str (f : Field) : String := f.getD ""

/-- A destructured body field of any JSON type, as `express.json()` hands it
over: absent, `null`, a boolean, a number, a string, or an array or object
(kept as its text). -/
inductive Value where
  | undefined
  | null
  | bool (b : Bool)
  | num (n : Int)
  | str (s : String)
  | structured (json : String)
deriving DecidableEq, Repr

/-- JavaScript `!x` on a JSON value: `undefined`, `null`, `false`, `0` and `""`
are falsy, every other value is truthy. -/
def Value.falsy : Value → Bool
  | .undefined => true
  | .null => true
  | .bool b => !b
  | .num n => n == 0
  | .str s => s == ""
  | .structured _ => false

/-- A string-or-absent field seen as a JSON value. -/
def Value.ofField : Field → Value
  | none => .undefined
  | some s => .str s

/-- Modelled from the spec: the user document of `models/User.js`, a file that
is not part of the sources at hand.  Section 3 of the specification lists the
fields: id, name, email, phone, role, password (a hash), createdAt, updatedAt. -/
structure User where
  id : Nat
  name : String
  email : String
  phone : Field
  role : Role
  password : String
  createdAt : Nat
  updatedAt : Nat
deriving DecidableEq, Repr

/-- A stored document of `appointmentSchema` (`models/Appointment.js`), with the
`_id` and the two timestamps that `timestamps: true` adds. -/
structure Appointment where
  id : Nat
  name : Field
  email : Field
  phone : Field
  service : Field
  preferredDate : Field
  preferredTime : Field
  message : Field
  createdAt : Nat
  updatedAt : Nat
deriving DecidableEq, Repr

/-- A stored document of `enquirySchema` (`models/Enquiry.js`). -/
structure Enquiry where
  id : Nat
  name : Field
  email : Field
  phone : Field
  subject : Field
  message : Field
  createdAt : Nat
  updatedAt : Nat
deriving DecidableEq, Repr

/-- The three collections, and the supply of fresh document ids. -/
structure Store where
  users : List User
  appointments : List Appointment
  enquiries : List Enquiry
  nextId : Nat
deriving DecidableEq, Repr

/-- What the outside world decides while one request (or one iteration of the
seeding loop) runs. -/
structure Env where
  readFails : Bool
  writeFails : Bool
  now : Nat
deriving DecidableEq, Repr

/-- Why a store operation rejected. -/
inductive StoreError where
  | unavailable
  | duplicateKey
  | validation
deriving DecidableEq, Repr

/-- The bcrypt primitives used by the handlers: `bcrypt.hash(p, 10)` and
`bcrypt.compare(p, digest)`.  The salt drawn by a call is part of the value. -/
structure Hasher where
  hash : String → String
  compare : String → String → Bool

/-- A signed token: the payload `{ id, role }`, the issue and expiry instants
in seconds, and the key it was signed with. -/
structure Token where
  id : Nat
  role : Role
  iat : Nat
  exp : Nat
  key : String
deriving DecidableEq, Repr

/-- Seconds in `'7d'`. -/
def sevenDays : Nat := 7 * 24 * 60 * 60

/-- The token that signing `{ id, role }` with `secret` at the instant `now`
(milliseconds) yields, valid for seven days. -/
def signedToken (id : Nat) (role : Role) (secret : String) (now : Nat) : Token :=
  { id := id, role := role, iat := now / 1000, exp := now / 1000 + sevenDays, key := secret }

/-- `jwt.sign({ id, role }, process.env.JWT_SECRET, { expiresIn: '7d' })`.  The
library throws when the key has no value; `none` is that throw. -/
def jwtSign (id : Nat) (role : Role) (secret : String) (now : Nat) : Option Token :=
  if secret == "" then none else some (signedToken id role secret now)

/-- `bcrypt.compare(password, digest)` on a password of any JSON type: the
library rejects ("Illegal arguments") unless the password is a string. -/
def bcryptCompare (h : Hasher) (password : Value) (digest : String) : Except String Bool :=
  match password with
  | .str p => .ok (h.compare p digest)
  | _ => .error "Illegal arguments"

/-- The `user` object of the register and login responses. -/
structure UserView where
  id : Nat
  name : String
  email : String
  role : Role
deriving DecidableEq, Repr

/-- Why a middleware turned a request away. -/
inductive Denial where
  | authenticationRequired
  | authenticationFailed
  | authorizationFailed
deriving DecidableEq, Repr

/-- JSON (or text) bodies the server sends. -/
inductive Body where
  | error (msg : String)
  | session (token : Token) (user : UserView)
  | message (msg : String)
  | appointments (docs : List Appointment)
  | enquiries (docs : List Enquiry)
  | overview (appointmentsCount enquiriesCount usersCount : Nat)
  | denied (why : Denial)
deriving DecidableEq, Repr

/-- An HTTP response: status code and body. -/
structure Response where
  status : Nat
  body : Body
deriving DecidableEq, Repr

/-- The token carried by a response, if any. -/
def Response.token (r : Response) : Option Token :=
  match r.body with
  | .session t _ => some t
  | _ => none

/-- The `catch` branch shared by all handlers. -/
def internalError : Response := ⟨500, .error "Internal server error"⟩

/-! ## Store operations -/

/-- `User.findOne({ email })`: the first user with that email, or `null`. -/
def User.findOne (env : Env) (s : Store) (email : String) : Except StoreError (Option User) :=
  if env.readFails then .error .unavailable
  else .ok (s.users.find? (fun u => u.email == email))

/-- Modelled from the spec: saving a user document (`user.save()`,
`User.create`), whose schema `models/User.js` is not part of the sources at
hand.  Section 2 of the specification: the credential store enforces unique
email. -/
def User.save (env : Env) (s : Store) (u : User) : Except StoreError Store :=
  if env.writeFails then .error .unavailable
  else if s.users.any (fun v => v.email == u.email) then .error .duplicateKey
  else .ok { s with users := s.users ++ [u], nextId := s.nextId + 1 }

/-! ## Auth routes -/

/-- Body of `POST /api/auth/register` as sent by a client; `role` is a field a
client may add, the handler does not read it. -/
structure RegisterBody where
  name : Field
  email : Field
  phone : Field
  password : Field
  role : Field
deriving DecidableEq, Repr

/-- `app.post('/api/auth/register', ...)`. -/
def postAuthRegister (secret : String) (h : Hasher) (env : Env) (s : Store)
    (b : RegisterBody) : Store × Response :=
  if falsy b.name || falsy b.email || falsy b.password then
    (s, ⟨400, .error "Name, email and password are required"⟩)
  else
    match User.findOne env s (str b.email) with
    | .error _ => (s, internalError)
    | .ok (some _) => (s, ⟨400, .error "Email already registered"⟩)
    | .ok none =>
      let hashed := h.hash (str b.password)
      let user : User :=
        { id := s.nextId, name := str b.name, email := str b.email, phone := b.phone,
          password := hashed, role := .patient, createdAt := env.now, updatedAt := env.now }
      match User.save env s user with
      | .error _ => (s, internalError)
      | .ok s' =>
        match jwtSign user.id user.role secret env.now with
        | none => (s', internalError)
        | some token =>
          (s', ⟨201, .session token
                  { id := user.id, name := user.name, email := user.email, role := user.role }⟩)

/-- Body of `POST /api/auth/login`.  The password is any JSON value; the email
is a string or absent, what the lookup does with another value being decided
by the user schema. -/
structure LoginBody where
  email : Field
  password : Value
deriving DecidableEq, Repr

/-- `app.post('/api/auth/login', ...)`. -/
def postAuthLogin (secret : String) (h : Hasher) (env : Env) (s : Store)
    (b : LoginBody) : Store × Response :=
  if falsy b.email || b.password.falsy then
    (s, ⟨400, .error "Email and password required"⟩)
  else
    match User.findOne env s (str b.email) with
    | .error _ => (s, internalError)
    | .ok none => (s, ⟨400, .error "Invalid credentials"⟩)
    | .ok (some user) =>
      match bcryptCompare h b.password user.password with
      | .error _ => (s, internalError)
      | .ok isMatch =>
        if !isMatch then
          (s, ⟨400, .error "Invalid credentials"⟩)
        else
          match jwtSign user.id user.role secret env.now with
          | none => (s, internalError)
          | some token =>
            (s, ⟨200, .session token
                   { id := user.id, name := user.name, email := user.email, role := user.role }⟩)

/-! ## Default staff seeding -/

/-- One entry of the `defaultUsers` array. -/
structure StaffEntry where
  name : String
  email : String
  phone : String
  role : Role
  password : String
deriving DecidableEq, Repr

/-- The `defaultUsers` array of `seedDefaultStaff`. -/
def defaultUsers : List StaffEntry :=
  [ { name := "Dr. Gautam Jayade", email := "gautam@jayadedental.com",
      phone := "+91 90000 00001", role := .doctor, password := "Gautam@123" },
    { name := "Dr. Deepa Jayade", email := "deepa@jayadedental.com",
      phone := "+91 90000 00002", role := .doctor, password := "Deepa@123" },
    { name := "Dr. Rohan Shetty", email := "rohan@jayadedental.com",
      phone := "+91 90000 00003", role := .doctor, password := "Rohan@123" },
    { name := "Dr. Ananya Kulkarni", email := "ananya@jayadedental.com",
      phone := "+91 90000 00004", role := .doctor, password := "Ananya@123" },
    { name := "Clinic Admin", email := "admin@jayadedental.com",
      phone := "+91 90000 00005", role := .admin, password := "Admin@123" } ]

/-- The user document that `User.create({ name, email, phone, role, password: hashed })`
builds for a staff entry. -/
def staffUser (h : Hasher) (env : Env) (s : Store) (u : StaffEntry) : User :=
  { id := s.nextId, name := u.name, email := u.email, phone := some u.phone,
    role := u.role, password := h.hash u.password,
    createdAt := env.now, updatedAt := env.now }

/-- The body of the `for (const u of defaultUsers)` loop. -/
def seedOne (h : Hasher) (env : Env) (s : Store) (u : StaffEntry) : Except StoreError Store :=
  match User.findOne env s u.email with
  | .error e => .error e
  | .ok (some _) => .ok s
  | .ok none => User.save env s (staffUser h env s u)

/-- The loop of `seedDefaultStaff` from its `i`-th iteration on: the store it
leaves behind, and the error that stopped it, if one did.  `envs i` is the
world during iteration `i`. -/
def seedLoop (h : Hasher) (envs : Nat → Env) : Nat → List StaffEntry → Store → Store × Option StoreError
  | _, [], s => (s, none)
  | i, u :: us, s =>
    match seedOne h (envs i) s u with
    | .error e => (s, some e)
    | .ok s' => seedLoop h envs (i + 1) us s'

/-- `seedDefaultStaff()`. -/
def seedDefaultStaff (h : Hasher) (envs : Nat → Env) (s : Store) : Store × Option StoreError :=
  seedLoop h envs 0 defaultUsers s

/-! ## Appointments and enquiries -/

/-- Body of `POST /api/appointments`. -/
structure AppointmentBody where
  name : Field
  email : Field
  phone : Field
  service : Field
  preferredDate : Field
  preferredTime : Field
  message : Field
deriving DecidableEq, Repr

/-- The `required: true` validators of `appointmentSchema`. -/
def Appointment.valid (a : Appointment) : Bool :=
  !falsy a.name && !falsy a.phone && !falsy a.service

/-- `appointment.save()`: validate against the schema, then write. -/
def Appointment.save (env : Env) (s : Store) (a : Appointment) : Except StoreError Store :=
  if !a.valid then .error .validation
  else if env.writeFails then .error .unavailable
  else .ok { s with appointments := s.appointments ++ [a], nextId := s.nextId + 1 }

/-- `app.post('/api/appointments', ...)`. -/
def postAppointments (env : Env) (s : Store) (b : AppointmentBody) : Store × Response :=
  if falsy b.name || falsy b.phone || falsy b.service then
    (s, ⟨400, .error "Name, phone and service are required"⟩)
  else
    let appointment : Appointment :=
      { id := s.nextId, name := b.name, email := b.email, phone := b.phone,
        service := b.service, preferredDate := b.preferredDate,
        preferredTime := b.preferredTime, message := b.message,
        createdAt := env.now, updatedAt := env.now }
    match Appointment.save env s appointment with
    | .error _ => (s, internalError)
    | .ok s' => (s', ⟨201, .message "Appointment request submitted successfully"⟩)

/-- Body of `POST /api/enquiries`. -/
structure EnquiryBody where
  name : Field
  email : Field
  phone : Field
  subject : Field
  message : Field
deriving DecidableEq, Repr

/-- The `required: true` validators of `enquirySchema`. -/
def Enquiry.valid (e : Enquiry) : Bool :=
  !falsy e.name && !falsy e.phone && !falsy e.message

/-- `enquiry.save()`: validate against the schema, then write. -/
def Enquiry.save (env : Env) (s : Store) (e : Enquiry) : Except StoreError Store :=
  if !e.valid then .error .validation
  else if env.writeFails then .error .unavailable
  else .ok { s with enquiries := s.enquiries ++ [e], nextId := s.nextId + 1 }

/-- `app.post('/api/enquiries', ...)`. -/
def postEnquiries (env : Env) (s : Store) (b : EnquiryBody) : Store × Response :=
  if falsy b.name || falsy b.phone || falsy b.message then
    (s, ⟨400, .error "Name, phone and message are required"⟩)
  else
    let enquiry : Enquiry :=
      { id := s.nextId, name := b.name, email := b.email, phone := b.phone,
        subject := b.subject, message := b.message,
        createdAt := env.now, updatedAt := env.now }
    match Enquiry.save env s enquiry with
    | .error _ => (s, internalError)
    | .ok s' => (s', ⟨201, .message "Enquiry submitted successfully"⟩)

/-- The order of `.sort({ createdAt: -1 })` on appointments: `a` may stand
before `b` when `a` was not created earlier than `b`. -/
def Appointment.newerFirst (a b : Appointment) : Prop := b.createdAt ≤ a.createdAt

instance Appointment.decNewerFirst : DecidableRel Appointment.newerFirst :=
  fun a b => inferInstanceAs (Decidable (b.createdAt ≤ a.createdAt))

/-- The order of `.sort({ createdAt: -1 })` on enquiries. -/
def Enquiry.newerFirst (a b : Enquiry) : Prop := b.createdAt ≤ a.createdAt

instance Enquiry.decNewerFirst : DecidableRel Enquiry.newerFirst :=
  fun a b => inferInstanceAs (Decidable (b.createdAt ≤ a.createdAt))

instance Appointment.newerFirst_total : IsTotal Appointment Appointment.newerFirst :=
  ⟨fun a b => Nat.le_total b.createdAt a.createdAt⟩

instance Appointment.newerFirst_trans : IsTrans Appointment Appointment.newerFirst :=
  ⟨fun _ _ _ hab hbc => Nat.le_trans hbc hab⟩

instance Enquiry.newerFirst_total : IsTotal Enquiry Enquiry.newerFirst :=
  ⟨fun a b => Nat.le_total b.createdAt a.createdAt⟩

instance Enquiry.newerFirst_trans : IsTrans Enquiry Enquiry.newerFirst :=
  ⟨fun _ _ _ hab hbc => Nat.le_trans hbc hab⟩

/-- `Appointment.find().sort({ createdAt: -1 })`. -/
def Appointment.findSorted (env : Env) (s : Store) : Except StoreError (List Appointment) :=
  if env.readFails then .error .unavailable
  else .ok (s.appointments.insertionSort Appointment.newerFirst)

/-- `Enquiry.find().sort({ createdAt: -1 })`. -/
def Enquiry.findSorted (env : Env) (s : Store) : Except StoreError (List Enquiry) :=
  if env.readFails then .error .unavailable
  else .ok (s.enquiries.insertionSort Enquiry.newerFirst)

/-- The handler of `app.get('/api/appointments', ...)`, run once the two
middlewares have let the request through. -/
def getAppointments (env : Env) (s : Store) : Store × Response :=
  match Appointment.findSorted env s with
  | .error _ => (s, internalError)
  | .ok data => (s, ⟨200, .appointments data⟩)

/-- The handler of `app.get('/api/enquiries', ...)`. -/
def getEnquiries (env : Env) (s : Store) : Store × Response :=
  match Enquiry.findSorted env s with
  | .error _ => (s, internalError)
  | .ok data => (s, ⟨200, .enquiries data⟩)

/-- The three `countDocuments()` calls under `Promise.all`. -/
def countAll (env : Env) (s : Store) : Except StoreError (Nat × Nat × Nat) :=
  if env.readFails then .error .unavailable
  else .ok (s.appointments.length, s.enquiries.length, s.users.length)

/-- The handler of `app.get('/api/admin/overview', ...)`. -/
def getAdminOverview (env : Env) (s : Store) : Store × Response :=
  match countAll env s with
  | .error _ => (s, internalError)
  | .ok (a, e, u) => (s, ⟨200, .overview a e u⟩)

/-! ## Middleware and protected routes -/

/-- What a request carries after `Bearer `: text that is no token, or a signed
token. -/
inductive Bearer where
  | garbage (raw : String)
  | jwt (t : Token)
deriving DecidableEq, Repr

/-- The part of a request the middlewares read. -/
structure Request where
  bearer : Option Bearer
deriving DecidableEq, Repr

/-- The identity `req.user` attached by `auth`. -/
structure Identity where
  id : Nat
  role : Role
deriving DecidableEq, Repr

/-- Modelled from the spec: the token verifier of section 4.2, used by
`middleware/auth.js` (a file that is not part of the sources at hand):
signature and expiry are checked, anything else is `Invalid`. -/
def jwtVerify (secret : String) (now : Nat) : Bearer → Option Identity
  | .garbage _ => none
  | .jwt t => if t.key == secret && decide (now / 1000 < t.exp) then some ⟨t.id, t.role⟩ else none

/-- Modelled from the spec: the `auth` middleware of `middleware/auth.js`, a
file that is not part of the sources at hand.  Section 4.3: no bearer token
rejects with authentication-required, an invalid one with
authentication-failed, a valid one attaches the identity. -/
def auth (secret : String) (env : Env) (req : Request) : Except Denial Identity :=
  match req.bearer with
  | none => .error .authenticationRequired
  | some c =>
    match jwtVerify secret env.now c with
    | none => .error .authenticationFailed
    | some ident => .ok ident

/-- Modelled from the spec: `authorizeRoles(...roles)` of `middleware/auth.js`,
a file that is not part of the sources at hand.  Section 4.4: permit if the
identity's role is in the allowed set, else reject with authorization-failed. -/
def authorizeRoles (allowed : List Role) (ident : Identity) : Except Denial Unit :=
  if ident.role ∈ allowed then .ok () else .error .authorizationFailed

/-- Modelled from the spec: the response a middleware sends on rejection
(section 7: authentication errors are 401-equivalent, authorization errors
403-equivalent). -/
def deny : Denial → Response
  | .authenticationRequired => ⟨401, .denied .authenticationRequired⟩
  | .authenticationFailed => ⟨401, .denied .authenticationFailed⟩
  | .authorizationFailed => ⟨403, .denied .authorizationFailed⟩

/-- The chain `auth, authorizeRoles(...allowed), handler` of a protected route. -/
def protectedRoute (allowed : List Role) (handler : Env → Store → Store × Response)
    (secret : String) (env : Env) (s : Store) (req : Request) : Store × Response :=
  match auth secret env req with
  | .error d => (s, deny d)
  | .ok ident =>
    match authorizeRoles allowed ident with
    | .error d => (s, deny d)
    | .ok _ => handler env s

/-- `app.get('/api/appointments', auth, authorizeRoles('doctor', 'admin'), ...)`. -/
def routeGetAppointments : String → Env → Store → Request → Store × Response :=
  protectedRoute [.doctor, .admin] getAppointments

/-- `app.get('/api/enquiries', auth, authorizeRoles('doctor', 'admin'), ...)`. -/
def routeGetEnquiries : String → Env → Store → Request → Store × Response :=
  protectedRoute [.doctor, .admin] getEnquiries

/-- `app.get('/api/admin/overview', auth, authorizeRoles('admin'), ...)`. -/
def routeGetAdminOverview : String → Env → Store → Request → Store × Response :=
  protectedRoute [.admin] getAdminOverview

/-! ## Startup -/

/-- The three variables of `process.env` that `server.js` reads. -/
structure ProcessEnv where
  PORT : Field
  MONGODB_URI : Field
  JWT_SECRET : Field
deriving DecidableEq, Repr

/-- The value of `process.env.PORT || 5000`. -/
inductive Port where
  | configured (value : String)
  | fallback (number : Nat)
deriving DecidableEq, Repr

/-- What the process does at startup, in order. -/
inductive Event where
  | consoleError (msg : String)
  | exit (code : Nat)
  | connect (uri : String)
  | connected
  | seedStarted
  | seedCompleted
  | listen (port : Port)
deriving DecidableEq, Repr

/-- The last section of `server.js`: read the configuration, leave with status
1 when a mandatory variable is not set, else connect, seed and listen.
`connectOk` says whether `mongoose.connect` resolves. -/
def startup (penv : ProcessEnv) (connectOk : Bool) (h : Hasher) (envs : Nat → Env)
    (s : Store) : Store × List Event :=
  let port : Port := if falsy penv.PORT then .fallback 5000 else .configured (str penv.PORT)
  if falsy penv.MONGODB_URI then
    (s, [.consoleError "MONGODB_URI is not set", .exit 1])
  else if falsy penv.JWT_SECRET then
    (s, [.consoleError "JWT_SECRET is not set", .exit 1])
  else if !connectOk then
    (s, [.connect (str penv.MONGODB_URI), .consoleError "MongoDB connection error:"])
  else
    match seedDefaultStaff h envs s with
    | (s', some _) =>
      (s', [.connect (str penv.MONGODB_URI), .connected, .seedStarted,
            .consoleError "MongoDB connection error:"])
    | (s', none) =>
      (s', [.connect (str penv.MONGODB_URI), .connected, .seedStarted, .seedCompleted,
            .listen port])

/-! ## Concrete inputs used to exercise the theorems -/

/-- A toy hasher: the digest is the password behind a fixed tag. -/
def tagHasher : Hasher :=
  { hash := fun p => "bcrypt:" ++ p, compare := fun p d => d == "bcrypt:" ++ p }

/-- A world in which no store operation rejects, at instant 0. -/
def calm : Env := { readFails := false, writeFails := false, now := 0 }

/-- The empty store. -/
def emptyStore : Store := { users := [], appointments := [], enquiries := [], nextId := 0 }

/-- A registration body that asks for the admin role. -/
def ashaBody : RegisterBody :=
  { name := some "Asha", email := some "asha@example.com", phone := none,
    password := some "s3cret", role := some "admin" }

/-- The record that registering `ashaBody` on the empty store creates. -/
def ashaUser : User :=
  { id := 0, name := "Asha", email := "asha@example.com", phone := none, role := .patient,
    password := "bcrypt:s3cret", createdAt := 0, updatedAt := 0 }

/-- A store that holds `ashaUser` and nothing else. -/
def ashaStore : Store := { users := [ashaUser], appointments := [], enquiries := [], nextId := 1 }

/-- A registration body with Asha's email and a password, but no name. -/
def namelessBody : RegisterBody :=
  { name := none, email := some "asha@example.com", phone := none,
    password := some "other", role := none }

/-- A login body with Asha's email and a wrong password. -/
def wrongPasswordBody : LoginBody :=
  { email := some "asha@example.com", password := .str "guess" }

/-- A login body with Asha's email and the JSON number 1 as password. -/
def numericPasswordBody : LoginBody :=
  { email := some "asha@example.com", password := .num 1 }

/-- A token of a patient, signed with the key "k" at instant 0. -/
def patientToken : Token := signedToken 0 .patient "k" 0

/-- A request that presents `patientToken`. -/
def patientRequest : Request := { bearer := some (.jwt patientToken) }

/-- An appointment body without a phone number. -/
def noPhoneBody : AppointmentBody :=
  { name := some "Ravi", email := none, phone := none, service := some "Cleaning",
    preferredDate := none, preferredTime := none, message := none }

/-- An appointment body with every required field. -/
def raviBody : AppointmentBody :=
  { name := some "Ravi", email := none, phone := some "+91 98765 43210",
    service := some "Cleaning", preferredDate := some "2025-01-10",
    preferredTime := some "10:30", message := none }

/-- A process environment whose connection string is set to the empty string. -/
def emptyUriEnv : ProcessEnv := { PORT := none, MONGODB_URI := some "", JWT_SECRET := some "k" }

/-- A process environment with both mandatory variables and no port. -/
def plainEnv : ProcessEnv :=
  { PORT := none, MONGODB_URI := some "mongodb://localhost/clinic", JWT_SECRET := some "k" }

/-- A store in which the admin account exists with a password other than the
initial one (rotated after an earlier seeding). -/
def rotatedAdminStore : Store :=
  { users := [{ id := 4, name := "Clinic Admin", email := "admin@jayadedental.com",
                phone := some "+91 90000 00005", role := .admin,
                password := "bcrypt:Rotated#456", createdAt := 0, updatedAt := 7 }],
    appointments := [], enquiries := [], nextId := 5 }

/-- Two appointments, the older one stored first. -/
def twoAppointmentsStore : Store :=
  { users := [],
    appointments :=
      [{ id := 0, name := some "Ravi", email := none, phone := some "1", service := some "Cleaning",
         preferredDate := none, preferredTime := none, message := none,
         createdAt := 10, updatedAt := 10 },
       { id := 1, name := some "Meera", email := none, phone := some "2", service := some "Braces",
         preferredDate := none, preferredTime := none, message := none,
         createdAt := 20, updatedAt := 20 }],
    enquiries := [], nextId := 2 }

/-! ## Basic facts about the store operations -/

theorem falsy_eq_false_iff (f : Field) : falsy f = false ↔ ∃ v, f = some v ∧ v ≠ "" := by
  cases f with
  | none => simp [falsy]
  | some v => simp [falsy]

theorem find_email_eq_none_iff (us : List User) (e : String) :
    us.find? (fun u => u.email == e) = none ↔ ∀ u ∈ us, u.email ≠ e := by
  simp [List.find?_eq_none]

theorem any_email_eq_false_iff (us : List User) (e : String) :
    us.any (fun v => v.email == e) = false ↔ ∀ u ∈ us, u.email ≠ e := by
  simp [List.any_eq_false]

theorem find_email_some_email {us : List User} {e : String} {u : User}
    (hu : us.find? (fun u => u.email == e) = some u) : u.email = e := by
  have := List.find?_some hu
  simpa using this

theorem find_email_append_fresh (us : List User) (u : User) (hfree : ∀ v ∈ us, v.email ≠ u.email) :
    (us ++ [u]).find? (fun v => v.email == u.email) = some u := by
  have h0 : us.find? (fun v => v.email == u.email) = none :=
    (find_email_eq_none_iff us u.email).2 hfree
  simp [List.find?_append, h0]

/-! ## Registration and login -/

/-- What `postAuthRegister` does on a body that passes both guards. -/
theorem postAuthRegister_fresh (secret : String) (h : Hasher) (env : Env) (s : Store)
    (b : RegisterBody)
    (hn : falsy b.name = false) (he : falsy b.email = false) (hp : falsy b.password = false)
    (hfree : ∀ u ∈ s.users, u.email ≠ str b.email)
    (hr : env.readFails = false) (hw : env.writeFails = false) (hk : secret ≠ "") :
    postAuthRegister secret h env s b =
      ({ s with
          users := s.users ++
            [{ id := s.nextId, name := str b.name, email := str b.email, phone := b.phone,
               password := h.hash (str b.password), role := .patient,
               createdAt := env.now, updatedAt := env.now }],
          nextId := s.nextId + 1 },
       ⟨201, .session (signedToken s.nextId .patient secret env.now)
               { id := s.nextId, name := str b.name, email := str b.email, role := .patient }⟩) := by
  have h0 := (find_email_eq_none_iff s.users (str b.email)).2 hfree
  have h1 := (any_email_eq_false_iff s.users (str b.email)).2 hfree
  simp [postAuthRegister, hn, he, hp, User.findOne, User.save, hr, hw, h0, h1, jwtSign, hk]

/-- A 201 from `postAuthRegister` means that no store operation rejected and
that the token could be signed. -/
theorem postAuthRegister_created_env (secret : String) (h : Hasher) (env : Env) (s : Store)
    (b : RegisterBody) (hs : (postAuthRegister secret h env s b).2.status = 201) :
    falsy b.name = false ∧ falsy b.email = false ∧ falsy b.password = false ∧
      env.readFails = false ∧ env.writeFails = false ∧ secret ≠ "" ∧
      s.users.find? (fun u => u.email == str b.email) = none := by
  unfold postAuthRegister at hs
  by_cases hg : (falsy b.name || falsy b.email || falsy b.password) = true
  · simp [hg] at hs
  · simp only [hg] at hs
    simp only [Bool.or_eq_true, not_or, Bool.not_eq_true] at hg
    obtain ⟨⟨hn, he⟩, hp⟩ := hg
    cases hr : env.readFails
    · cases hf : s.users.find? (fun u => u.email == str b.email) with
      | some u => simp [User.findOne, hr, hf] at hs
      | none =>
        cases hw : env.writeFails
        · refine ⟨hn, he, hp, rfl, rfl, ?_, rfl⟩
          rintro rfl
          have hany := (any_email_eq_false_iff s.users (str b.email)).2
            ((find_email_eq_none_iff _ _).1 hf)
          simp [User.findOne, hr, hf, User.save, hw, hany, jwtSign, internalError] at hs
        · simp [User.findOne, hr, hf, User.save, hw, internalError] at hs
    · simp [User.findOne, hr, internalError] at hs

/-- C1: a register body whose name, email and password pass the guard and whose
email is not in the user store is answered 201 when the store answers and the
signing secret is set, and whenever the answer is 201 the one user record added
to the store, the token and the `user` object of the response all carry the
role patient; the `role` field of the body has no influence on the outcome. -/
theorem register_role_always_patient (secret : String) (h : Hasher) (env : Env) (s : Store)
    (b : RegisterBody)
    (hn : falsy b.name = false) (he : falsy b.email = false) (hp : falsy b.password = false)
    (hfree : ∀ u ∈ s.users, u.email ≠ str b.email) :
    (∀ r : Field, postAuthRegister secret h env s { b with role := r }
        = postAuthRegister secret h env s b) ∧
    (env.readFails = false → env.writeFails = false → secret ≠ "" →
        (postAuthRegister secret h env s b).2.status = 201) ∧
    ((postAuthRegister secret h env s b).2.status = 201 →
        ∃ u tok view,
          (postAuthRegister secret h env s b).1.users = s.users ++ [u] ∧
          u.email = str b.email ∧ u.role = Role.patient ∧
          (postAuthRegister secret h env s b).2.body = Body.session tok view ∧
          tok.id = u.id ∧ tok.role = Role.patient ∧
          view.id = u.id ∧ view.role = Role.patient) := by
  refine ⟨fun r => rfl, ?_, ?_⟩
  · intro hr hw hk
    rw [postAuthRegister_fresh secret h env s b hn he hp hfree hr hw hk]
  · intro hs
    obtain ⟨_, _, _, hr, hw, hk, _⟩ := postAuthRegister_created_env secret h env s b hs
    rw [postAuthRegister_fresh secret h env s b hn he hp hfree hr hw hk]
    exact ⟨_, _, _, rfl, rfl, rfl, rfl, rfl, rfl, rfl, rfl⟩

theorem register_role_always_patient_witness :
    (falsy ashaBody.name = false ∧ falsy ashaBody.email = false ∧
      falsy ashaBody.password = false ∧
      ∀ u ∈ emptyStore.users, u.email ≠ str ashaBody.email) ∧
    (postAuthRegister "k" tagHasher calm emptyStore ashaBody).2.status = 201 :=
  ⟨⟨by decide, by decide, by decide, by simp [emptyStore]⟩,
   (register_role_always_patient "k" tagHasher calm emptyStore ashaBody
      (by decide) (by decide) (by decide) (by simp [emptyStore])).2.1 rfl rfl (by decide)⟩

/-- C2, as stated, fails: a register request whose email belongs to a stored
user but which carries no name is answered with the missing-field error, not
with `Email already registered`. -/
theorem register_duplicate_nameless_counterexample :
    (ashaUser ∈ ashaStore.users ∧ namelessBody.email = some ashaUser.email ∧
      calm.readFails = false) ∧
    (postAuthRegister "k" tagHasher calm ashaStore namelessBody).2
      = ⟨400, Body.error "Name, email and password are required"⟩ ∧
    (postAuthRegister "k" tagHasher calm ashaStore namelessBody).2
      ≠ ⟨400, Body.error "Email already registered"⟩ := by
  refine ⟨⟨by simp [ashaStore], rfl, rfl⟩, rfl, by decide⟩

/-- C2, amended: a register request whose email belongs to a stored user
leaves the store unchanged and gets no token; when the store answers the
lookup the status is 400, and when moreover name, email and password pass the
guard the response is 400 with the error `Email already registered`. -/
theorem register_duplicate_email_rejected (secret : String) (h : Hasher) (env : Env)
    (s : Store) (b : RegisterBody) (hdup : ∃ u ∈ s.users, b.email = some u.email) :
    (postAuthRegister secret h env s b).1 = s ∧
    (postAuthRegister secret h env s b).2.token = none ∧
    (env.readFails = false → (postAuthRegister secret h env s b).2.status = 400) ∧
    (env.readFails = false → falsy b.name = false → falsy b.email = false →
      falsy b.password = false →
      (postAuthRegister secret h env s b).2 = ⟨400, Body.error "Email already registered"⟩) := by
  obtain ⟨u, hu, hbe⟩ := hdup
  have hstr : str b.email = u.email := by simp [str, hbe]
  obtain ⟨v, hv⟩ : ∃ v, s.users.find? (fun w => w.email == str b.email) = some v := by
    cases hf : s.users.find? (fun w => w.email == str b.email) with
    | some v => exact ⟨v, rfl⟩
    | none => exact absurd hstr.symm ((find_email_eq_none_iff _ _).1 hf u hu)
  by_cases hg : (falsy b.name || falsy b.email || falsy b.password) = true
  · have e : postAuthRegister secret h env s b
        = (s, ⟨400, Body.error "Name, email and password are required"⟩) := by
      simp [postAuthRegister, hg]
    rw [e]
    refine ⟨rfl, rfl, fun _ => rfl, ?_⟩
    intro _ hn he hp
    simp [hn, he, hp] at hg
  · cases hr : env.readFails
    · have e : postAuthRegister secret h env s b
          = (s, ⟨400, Body.error "Email already registered"⟩) := by
        simp [postAuthRegister, hg, User.findOne, hr, hv]
      rw [e]
      exact ⟨rfl, rfl, fun _ => rfl, fun _ _ _ _ => rfl⟩
    · have e : postAuthRegister secret h env s b = (s, internalError) := by
        simp [postAuthRegister, hg, User.findOne, hr]
      rw [e]
      refine ⟨rfl, rfl, ?_, ?_⟩
      · intro hc; cases hc
      · intro hc; cases hc

theorem register_duplicate_email_rejected_witness :
    (∃ u ∈ ashaStore.users, ashaBody.email = some u.email) ∧
    (postAuthRegister "k" tagHasher calm ashaStore ashaBody).2
      = ⟨400, Body.error "Email already registered"⟩ :=
  ⟨⟨ashaUser, by simp [ashaStore], rfl⟩,
   (register_duplicate_email_rejected "k" tagHasher calm ashaStore ashaBody
      ⟨ashaUser, by simp [ashaStore], rfl⟩).2.2.2 rfl (by decide) (by decide) (by decide)⟩

/-- C3: after a registration that was answered 201 (name, email and password
passing the guard, email not yet in the store), a login with the same email and
password is answered 200 whenever the store answers the lookup and the hasher
accepts a password against its own digest; the token of that answer carries the
id of the user record the registration created and the role patient. -/
theorem login_after_register (secret : String) (h : Hasher) (envR envL : Env) (s : Store)
    (b : RegisterBody)
    (hn : falsy b.name = false) (he : falsy b.email = false) (hp : falsy b.password = false)
    (hfree : ∀ u ∈ s.users, u.email ≠ str b.email)
    (hver : ∀ p, h.compare p (h.hash p) = true)
    (hok : (postAuthRegister secret h envR s b).2.status = 201)
    (hrL : envL.readFails = false) :
    ∃ u tok view,
      (postAuthRegister secret h envR s b).1.users = s.users ++ [u] ∧
      postAuthLogin secret h envL (postAuthRegister secret h envR s b).1
          { email := b.email, password := Value.ofField b.password }
        = ((postAuthRegister secret h envR s b).1, ⟨200, Body.session tok view⟩) ∧
      tok.id = u.id ∧ tok.role = Role.patient := by
  obtain ⟨p, hbp, hpne⟩ := (falsy_eq_false_iff b.password).1 hp
  obtain ⟨_, _, _, hr, hw, hk, h0⟩ := postAuthRegister_created_env secret h envR s b hok
  rw [postAuthRegister_fresh secret h envR s b hn he hp hfree hr hw hk]
  have hstr : str b.password = p := by simp [str, hbp]
  have hsome : str (some p) = p := rfl
  refine ⟨_, signedToken s.nextId Role.patient secret envL.now,
    { id := s.nextId, name := str b.name, email := str b.email, role := Role.patient },
    rfl, ?_, rfl, rfl⟩
  simp [postAuthLogin, he, hbp, hstr, hsome, Value.ofField, Value.falsy, hpne, User.findOne,
    hrL, List.find?_append, h0, bcryptCompare, hver, jwtSign, hk]

theorem login_after_register_witness :
    (falsy ashaBody.name = false ∧ falsy ashaBody.email = false ∧
      falsy ashaBody.password = false ∧
      (∀ u ∈ emptyStore.users, u.email ≠ str ashaBody.email) ∧
      (∀ p, tagHasher.compare p (tagHasher.hash p) = true) ∧
      (postAuthRegister "k" tagHasher calm emptyStore ashaBody).2.status = 201 ∧
      calm.readFails = false) ∧
    ∃ u tok view,
      (postAuthRegister "k" tagHasher calm emptyStore ashaBody).1.users
        = emptyStore.users ++ [u] ∧
      postAuthLogin "k" tagHasher calm (postAuthRegister "k" tagHasher calm emptyStore ashaBody).1
          { email := ashaBody.email, password := Value.ofField ashaBody.password }
        = ((postAuthRegister "k" tagHasher calm emptyStore ashaBody).1,
            ⟨200, Body.session tok view⟩) ∧
      tok.id = u.id ∧ tok.role = Role.patient :=
  ⟨⟨by decide, by decide, by decide, by simp [emptyStore], by simp [tagHasher], rfl, rfl⟩,
   login_after_register "k" tagHasher calm calm emptyStore ashaBody
     (by decide) (by decide) (by decide) (by simp [emptyStore]) (by simp [tagHasher]) rfl rfl⟩

/-- For a login body whose password is a string, the sibling case of the one
below: the response when the lookup finds no user with the email and the
response when it finds one whose stored hash does not verify the password are
the same response, status 400, body `Invalid credentials`, no token. -/
theorem postAuthLogin_string_failures_agree (secret : String) (h : Hasher) (env₁ env₂ : Env)
    (s₁ s₂ : Store) (email : Field) (p : String) (u : User)
    (he : falsy email = false) (hp : p ≠ "")
    (hnone : User.findOne env₁ s₁ (str email) = .ok none)
    (hsome : User.findOne env₂ s₂ (str email) = .ok (some u))
    (hbad : h.compare p u.password = false) :
    (postAuthLogin secret h env₁ s₁ { email := email, password := .str p }).2
      = ⟨400, Body.error "Invalid credentials"⟩ ∧
    (postAuthLogin secret h env₂ s₂ { email := email, password := .str p }).2
      = ⟨400, Body.error "Invalid credentials"⟩ := by
  constructor
  · simp [postAuthLogin, he, hp, Value.falsy, hnone]
  · simp [postAuthLogin, he, hp, Value.falsy, hsome, bcryptCompare, hbad]

/-- C4 fails on the code: the login body with Asha's email and the JSON number
1 as password passes the guard `!email || !password`; when no user has the
email the answer is 400 `Invalid credentials`, and when Asha's account exists
`bcrypt.compare` rejects the password that is no string, the `catch` answers
500 `Internal server error`, and the two responses differ. -/
theorem login_numeric_password_distinguishes :
    (falsy numericPasswordBody.email = false ∧ numericPasswordBody.password.falsy = false) ∧
    (User.findOne calm emptyStore (str numericPasswordBody.email) = .ok none ∧
      User.findOne calm ashaStore (str numericPasswordBody.email) = .ok (some ashaUser)) ∧
    (postAuthLogin "k" tagHasher calm emptyStore numericPasswordBody).2
      = ⟨400, Body.error "Invalid credentials"⟩ ∧
    (postAuthLogin "k" tagHasher calm ashaStore numericPasswordBody).2
      = ⟨500, Body.error "Internal server error"⟩ ∧
    (postAuthLogin "k" tagHasher calm emptyStore numericPasswordBody).2
      ≠ (postAuthLogin "k" tagHasher calm ashaStore numericPasswordBody).2 := by
  refine ⟨⟨by decide, by decide⟩, ⟨rfl, by rfl⟩, by rfl, by rfl, by decide⟩

/-! ## Role-gated routes -/

/-- C5: for a request that `auth` lets through with identity `ident`, a
role-gated route runs its handler when the role of `ident` is in the route's
allowed set and otherwise answers with the authorization error (403, not the
401 of an authentication error) without running the handler; the set is
doctor and admin for `GET /api/appointments` and `GET /api/enquiries`, admin
alone for `GET /api/admin/overview`, so a patient is turned away from
`GET /api/appointments` with the authorization error. -/
theorem role_gate_accepts_iff_allowed (secret : String) (env : Env) (s : Store)
    (req : Request) (ident : Identity) (hauth : auth secret env req = .ok ident) :
    (∀ (allowed : List Role) (handler : Env → Store → Store × Response),
      (ident.role ∈ allowed →
        protectedRoute allowed handler secret env s req = handler env s) ∧
      (ident.role ∉ allowed →
        protectedRoute allowed handler secret env s req = (s, deny .authorizationFailed))) ∧
    ((ident.role = .doctor ∨ ident.role = .admin) →
      routeGetAppointments secret env s req = getAppointments env s ∧
      routeGetEnquiries secret env s req = getEnquiries env s) ∧
    (¬ (ident.role = .doctor ∨ ident.role = .admin) →
      routeGetAppointments secret env s req = (s, ⟨403, Body.denied .authorizationFailed⟩) ∧
      routeGetEnquiries secret env s req = (s, ⟨403, Body.denied .authorizationFailed⟩)) ∧
    (ident.role = .admin → routeGetAdminOverview secret env s req = getAdminOverview env s) ∧
    (ident.role ≠ .admin →
      routeGetAdminOverview secret env s req = (s, ⟨403, Body.denied .authorizationFailed⟩)) ∧
    (ident.role = .patient →
      routeGetAppointments secret env s req = (s, ⟨403, Body.denied .authorizationFailed⟩) ∧
      (routeGetAppointments secret env s req).2 ≠ deny .authenticationRequired ∧
      (routeGetAppointments secret env s req).2 ≠ deny .authenticationFailed) := by
  have gate : ∀ (allowed : List Role) (handler : Env → Store → Store × Response),
      (ident.role ∈ allowed →
        protectedRoute allowed handler secret env s req = handler env s) ∧
      (ident.role ∉ allowed →
        protectedRoute allowed handler secret env s req = (s, deny .authorizationFailed)) := by
    intro allowed handler
    constructor
    · intro hin
      simp [protectedRoute, hauth, authorizeRoles, hin]
    · intro hout
      simp [protectedRoute, hauth, authorizeRoles, hout]
  refine ⟨gate, ?_, ?_, ?_, ?_, ?_⟩
  · intro hr
    have hin : ident.role ∈ [Role.doctor, Role.admin] := by simpa using hr
    exact ⟨(gate _ getAppointments).1 hin, (gate _ getEnquiries).1 hin⟩
  · intro hr
    have hout : ident.role ∉ [Role.doctor, Role.admin] := by simpa using hr
    exact ⟨(gate _ getAppointments).2 hout, (gate _ getEnquiries).2 hout⟩
  · intro hr
    exact (gate _ getAdminOverview).1 (by simp [hr])
  · intro hr
    exact (gate _ getAdminOverview).2 (by simp [hr])
  · intro hr
    have hout : ident.role ∉ [Role.doctor, Role.admin] := by simp [hr]
    have e : routeGetAppointments secret env s req = (s, deny .authorizationFailed) :=
      (gate _ getAppointments).2 hout
    rw [e]
    exact ⟨rfl, by simp [deny], by simp [deny]⟩

theorem role_gate_accepts_iff_allowed_witness :
    auth "k" calm patientRequest = .ok ⟨0, Role.patient⟩ ∧
    routeGetAppointments "k" calm emptyStore patientRequest
      = (emptyStore, ⟨403, Body.denied .authorizationFailed⟩) :=
  ⟨by rfl,
   ((role_gate_accepts_iff_allowed "k" calm emptyStore patientRequest ⟨0, Role.patient⟩
      (by rfl)).2.2.2.2.2 rfl).1⟩

/-! ## Appointments and listings -/

/-- C8: a body of `POST /api/appointments` in which name, phone or service is
missing or empty is answered 400 with the validation error and the store is
left as it was; a body with all three is, when the store write succeeds,
answered 201 and exactly one record is appended to the appointments, carrying
the submitted name, email, phone, service, preferredDate, preferredTime and
message, the records stored before being unchanged. -/
theorem appointment_submission (env : Env) (s : Store) (b : AppointmentBody) :
    ((falsy b.name = true ∨ falsy b.phone = true ∨ falsy b.service = true) →
      postAppointments env s b
        = (s, ⟨400, Body.error "Name, phone and service are required"⟩)) ∧
    (falsy b.name = false → falsy b.phone = false → falsy b.service = false →
      env.writeFails = false →
      (postAppointments env s b).2
        = ⟨201, Body.message "Appointment request submitted successfully"⟩ ∧
      ∃ a : Appointment,
        (postAppointments env s b).1.appointments = s.appointments ++ [a] ∧
        a.name = b.name ∧ a.email = b.email ∧ a.phone = b.phone ∧ a.service = b.service ∧
        a.preferredDate = b.preferredDate ∧ a.preferredTime = b.preferredTime ∧
        a.message = b.message ∧
        (postAppointments env s b).1.users = s.users ∧
        (postAppointments env s b).1.enquiries = s.enquiries) ∧
    (falsy b.name = false → falsy b.phone = false → falsy b.service = false →
      env.writeFails = true → postAppointments env s b = (s, internalError)) := by
  refine ⟨?_, ?_, ?_⟩
  · intro hmiss
    have hg : (falsy b.name || falsy b.phone || falsy b.service) = true := by
      rcases hmiss with h1 | h1 | h1 <;> simp [h1]
    simp [postAppointments, hg]
  · intro hn hp hsv hw
    simp [postAppointments, hn, hp, hsv, Appointment.save, Appointment.valid, hw]
  · intro hn hp hsv hw
    simp [postAppointments, hn, hp, hsv, Appointment.save, Appointment.valid, hw]

theorem appointment_submission_witness :
    postAppointments calm emptyStore noPhoneBody
      = (emptyStore, ⟨400, Body.error "Name, phone and service are required"⟩) ∧
    (postAppointments calm emptyStore raviBody).2
      = ⟨201, Body.message "Appointment request submitted successfully"⟩ :=
  ⟨(appointment_submission calm emptyStore noPhoneBody).1 (Or.inr (Or.inl rfl)),
   ((appointment_submission calm emptyStore raviBody).2.1
      (by decide) (by decide) (by decide) rfl).1⟩

/-- C9: the handlers of `GET /api/appointments` and `GET /api/enquiries` never
change the store, and when the store answers the query they respond 200 with a
list that is a permutation of all stored records of the collection in which no
record stands before one created later. -/
theorem listing_newest_first (env : Env) (s : Store) :
    (getAppointments env s).1 = s ∧ (getEnquiries env s).1 = s ∧
    (env.readFails = false →
      ∃ docs : List Appointment,
        (getAppointments env s).2 = ⟨200, Body.appointments docs⟩ ∧
        docs.Perm s.appointments ∧
        docs.Pairwise (fun a b => b.createdAt ≤ a.createdAt)) ∧
    (env.readFails = false →
      ∃ docs : List Enquiry,
        (getEnquiries env s).2 = ⟨200, Body.enquiries docs⟩ ∧
        docs.Perm s.enquiries ∧
        docs.Pairwise (fun a b => b.createdAt ≤ a.createdAt)) := by
  refine ⟨?_, ?_, ?_, ?_⟩
  · cases hr : env.readFails <;> simp [getAppointments, Appointment.findSorted, hr]
  · cases hr : env.readFails <;> simp [getEnquiries, Enquiry.findSorted, hr]
  · intro hr
    refine ⟨s.appointments.insertionSort Appointment.newerFirst, ?_,
      List.perm_insertionSort _ _, ?_⟩
    · simp [getAppointments, Appointment.findSorted, hr]
    · exact List.sorted_insertionSort Appointment.newerFirst s.appointments
  · intro hr
    refine ⟨s.enquiries.insertionSort Enquiry.newerFirst, ?_,
      List.perm_insertionSort _ _, ?_⟩
    · simp [getEnquiries, Enquiry.findSorted, hr]
    · exact List.sorted_insertionSort Enquiry.newerFirst s.enquiries

theorem listing_newest_first_witness :
    ∃ docs : List Appointment,
      (getAppointments calm twoAppointmentsStore).2 = ⟨200, Body.appointments docs⟩ ∧
      docs.Perm twoAppointmentsStore.appointments ∧
      docs.Pairwise (fun a b => b.createdAt ≤ a.createdAt) :=
  (listing_newest_first calm twoAppointmentsStore).2.2.1 rfl

/-! ## Startup -/

/-- C10, as stated, fails: with `MONGODB_URI` set to the empty string neither
mandatory variable is absent, yet startup logs the fatal error and exits with
status 1. -/
theorem startup_empty_uri_counterexample :
    (emptyUriEnv.MONGODB_URI ≠ none ∧ emptyUriEnv.JWT_SECRET ≠ none) ∧
    (startup emptyUriEnv true tagHasher (fun _ => calm) emptyStore).2
      = [Event.consoleError "MONGODB_URI is not set", Event.exit 1] ∧
    ¬ ((∃ msg, (startup emptyUriEnv true tagHasher (fun _ => calm) emptyStore).2
          = [Event.consoleError msg, Event.exit 1]) ↔
       (emptyUriEnv.MONGODB_URI = none ∨ emptyUriEnv.JWT_SECRET = none)) := by
  have e : (startup emptyUriEnv true tagHasher (fun _ => calm) emptyStore).2
      = [Event.consoleError "MONGODB_URI is not set", Event.exit 1] := rfl
  refine ⟨⟨by simp [emptyUriEnv], by simp [emptyUriEnv]⟩, e, ?_⟩
  intro hiff
  have := hiff.1 ⟨_, e⟩
  simp [emptyUriEnv] at this

/-- C10, amended: startup logs a fatal error and exits with status 1, doing
nothing else (no connection attempt, no seeding, no listener, store untouched),
iff `MONGODB_URI` or `JWT_SECRET` is absent or empty; a listener is bound only
as the last step after the connection succeeded and `seedDefaultStaff`
completed, on the port of `PORT`, or on 5000 when `PORT` is absent or empty;
and with both variables set it is bound whenever connection and seeding
succeed. -/
theorem startup_aborts_iff_unset (penv : ProcessEnv) (connectOk : Bool) (h : Hasher)
    (envs : Nat → Env) (s : Store) :
    ((∃ msg, (startup penv connectOk h envs s).2 = [Event.consoleError msg, Event.exit 1]) ↔
      (falsy penv.MONGODB_URI = true ∨ falsy penv.JWT_SECRET = true)) ∧
    ((falsy penv.MONGODB_URI = true ∨ falsy penv.JWT_SECRET = true) →
      (startup penv connectOk h envs s).1 = s) ∧
    (∀ p, Event.listen p ∈ (startup penv connectOk h envs s).2 →
      falsy penv.MONGODB_URI = false ∧ falsy penv.JWT_SECRET = false ∧
      connectOk = true ∧ (seedDefaultStaff h envs s).2 = none ∧
      p = (if falsy penv.PORT then Port.fallback 5000 else Port.configured (str penv.PORT)) ∧
      startup penv connectOk h envs s
        = ((seedDefaultStaff h envs s).1,
           [Event.connect (str penv.MONGODB_URI), Event.connected, Event.seedStarted,
            Event.seedCompleted, Event.listen p])) ∧
    (falsy penv.MONGODB_URI = false → falsy penv.JWT_SECRET = false → connectOk = true →
      (seedDefaultStaff h envs s).2 = none →
      Event.listen (if falsy penv.PORT then Port.fallback 5000
                    else Port.configured (str penv.PORT))
        ∈ (startup penv connectOk h envs s).2) := by
  cases hu : falsy penv.MONGODB_URI
  · cases hj : falsy penv.JWT_SECRET
    · cases hc : connectOk
      · simp [startup, hu, hj]
      · rcases hseed : seedDefaultStaff h envs s with ⟨s', r⟩
        cases r with
        | none => simp [startup, hu, hj, hseed]
        | some e => simp [startup, hu, hj, hseed]
    · simp [startup, hu, hj]
  · simp [startup, hu]

theorem startup_aborts_iff_unset_witness :
    Event.listen (Port.fallback 5000)
      ∈ (startup plainEnv true tagHasher (fun _ => calm) emptyStore).2 :=
  (startup_aborts_iff_unset plainEnv true tagHasher (fun _ => calm) emptyStore).2.2.2
    (by decide) (by decide) rfl (by rfl)

/-! ## Seeding -/

theorem defaultUsers_emails_distinct :
    defaultUsers.Pairwise (fun a b => a.email ≠ b.email) := by
  decide

/-- What a successful iteration of the seeding loop did. -/
theorem seedOne_ok {h : Hasher} {env : Env} {s s' : Store} {u : StaffEntry}
    (hok : seedOne h env s u = .ok s') :
    (s' = s ∧ ∃ v ∈ s.users, v.email = u.email) ∨
    ((∀ v ∈ s.users, v.email ≠ u.email) ∧
      s' = { s with users := s.users ++ [staffUser h env s u], nextId := s.nextId + 1 }) := by
  unfold seedOne User.findOne at hok
  cases hr : env.readFails
  · simp only [hr] at hok
    cases hf : s.users.find? (fun v => v.email == u.email) with
    | some v =>
      left
      simp [hf] at hok
      exact ⟨hok.symm, v, List.mem_of_find?_eq_some hf, find_email_some_email hf⟩
    | none =>
      right
      have hfree := (find_email_eq_none_iff _ _).1 hf
      have hany := (any_email_eq_false_iff s.users u.email).2 hfree
      cases hw : env.writeFails
      · simp [hf, User.save, hw, staffUser, hany] at hok
        exact ⟨hfree, hok.symm⟩
      · simp [hf, User.save, hw] at hok
  · simp [hr] at hok

/-- An iteration for an entry whose email is in the store writes nothing. -/
theorem seedOne_present (h : Hasher) (env : Env) (s : Store) (u : StaffEntry)
    (hin : ∃ v ∈ s.users, v.email = u.email) :
    (env.readFails = false → seedOne h env s u = .ok s) ∧
    (env.readFails = true → ∃ e, seedOne h env s u = .error e) := by
  obtain ⟨v, hv, hve⟩ := hin
  obtain ⟨w, hw⟩ : ∃ w, s.users.find? (fun x => x.email == u.email) = some w := by
    cases hf : s.users.find? (fun x => x.email == u.email) with
    | some w => exact ⟨w, rfl⟩
    | none => exact absurd hve ((find_email_eq_none_iff _ _).1 hf v hv)
  constructor
  · intro hr
    simp [seedOne, User.findOne, hr, hw]
  · intro hr
    exact ⟨.unavailable, by simp [seedOne, User.findOne, hr]⟩

/-- The seeding loop only appends user records. -/
theorem seedLoop_extends (h : Hasher) (envs : Nat → Env) (us : List StaffEntry) :
    ∀ (i : Nat) (s : Store), ∃ added,
      (seedLoop h envs i us s).1.users = s.users ++ added ∧
      (seedLoop h envs i us s).1.appointments = s.appointments ∧
      (seedLoop h envs i us s).1.enquiries = s.enquiries := by
  induction us with
  | nil => intro i s; exact ⟨[], by simp [seedLoop]⟩
  | cons u us ih =>
    intro i s
    cases hone : seedOne h (envs i) s u with
    | error e => exact ⟨[], by simp [seedLoop, hone]⟩
    | ok s' =>
      obtain ⟨added, ha, hb, hc⟩ := ih (i + 1) s'
      simp only [seedLoop, hone]
      rcases seedOne_ok hone with ⟨rfl, _⟩ | ⟨_, rfl⟩
      · exact ⟨added, ha, hb, hc⟩
      · exact ⟨staffUser h (envs i) s u :: added, by simpa using ha, hb, hc⟩

/-- When every entry's email is in the store the loop leaves the store as it is,
and it completes when the lookups are answered. -/
theorem seedLoop_present (h : Hasher) (envs : Nat → Env) (us : List StaffEntry) :
    ∀ (i : Nat) (s : Store), (∀ u ∈ us, ∃ v ∈ s.users, v.email = u.email) →
      (seedLoop h envs i us s).1 = s ∧
      ((∀ j, (envs j).readFails = false) → seedLoop h envs i us s = (s, none)) := by
  induction us with
  | nil => intro i s _; simp [seedLoop]
  | cons u us ih =>
    intro i s hall
    have hu := seedOne_present h (envs i) s u (hall u (by simp))
    have hrest := ih (i + 1) s (fun d hd => hall d (by simp [hd]))
    cases hr : (envs i).readFails
    · have e := hu.1 hr
      simp only [seedLoop, e]
      exact hrest
    · obtain ⟨e, he⟩ := hu.2 hr
      have hstop : seedLoop h envs i (u :: us) s = (s, some e) := by simp [seedLoop, he]
      rw [hstop]
      exact ⟨rfl, fun hall' => by simp [hall' i] at hr⟩

/-- After a completed loop every entry's email is in the store. -/
theorem seedLoop_complete_covers (h : Hasher) (envs : Nat → Env) (us : List StaffEntry) :
    ∀ (i : Nat) (s : Store), (seedLoop h envs i us s).2 = none →
      ∀ u ∈ us, ∃ v ∈ (seedLoop h envs i us s).1.users, v.email = u.email := by
  induction us with
  | nil => intro i s _ u hu; simp at hu
  | cons u us ih =>
    intro i s hdone d hd
    cases hone : seedOne h (envs i) s u with
    | error e => simp [seedLoop, hone] at hdone
    | ok s' =>
      simp only [seedLoop, hone] at hdone ⊢
      rcases List.mem_cons.1 hd with rfl | hd'
      · obtain ⟨added, ha, _, _⟩ := seedLoop_extends h envs us (i + 1) s'
        have hin : ∃ v ∈ s'.users, v.email = d.email := by
          rcases seedOne_ok hone with ⟨rfl, hv⟩ | ⟨_, rfl⟩
          · exact hv
          · exact ⟨staffUser h (envs i) s d, by simp, rfl⟩
        obtain ⟨v, hv, hve⟩ := hin
        exact ⟨v, by rw [ha]; exact List.mem_append_left _ hv, hve⟩
      · exact ih (i + 1) s' hdone d hd'

/-- An iteration during which the store rejects nothing succeeds. -/
theorem seedOne_calm (h : Hasher) (env : Env) (s : Store) (u : StaffEntry)
    (hr : env.readFails = false) (hw : env.writeFails = false) :
    ∃ s', seedOne h env s u = .ok s' := by
  cases hf : s.users.find? (fun v => v.email == u.email) with
  | some v => exact ⟨s, by simp [seedOne, User.findOne, hr, hf]⟩
  | none =>
    have hany := (any_email_eq_false_iff s.users u.email).2 ((find_email_eq_none_iff _ _).1 hf)
    exact ⟨_, by simp [seedOne, User.findOne, hr, hf, User.save, hw, staffUser, hany]; rfl⟩

/-- The loop runs to its end when the store rejects nothing. -/
theorem seedLoop_completes (h : Hasher) (envs : Nat → Env) (us : List StaffEntry)
    (hcalm : ∀ j, (envs j).readFails = false ∧ (envs j).writeFails = false) :
    ∀ (i : Nat) (s : Store), (seedLoop h envs i us s).2 = none := by
  induction us with
  | nil => intro i s; simp [seedLoop]
  | cons u us ih =>
    intro i s
    obtain ⟨s', hs'⟩ := seedOne_calm h (envs i) s u (hcalm i).1 (hcalm i).2
    simp only [seedLoop, hs']
    exact ih (i + 1) s'

theorem find_email_append_left {us added : List User} {e : String} {v : User}
    (hv : us.find? (fun u => u.email == e) = some v) :
    (us ++ added).find? (fun u => u.email == e) = some v := by
  simp [List.find?_append, hv]

/-- From a store that holds none of the entries' emails, a completed loop over
entries with pairwise distinct emails appends one record per entry, in order. -/
theorem seedLoop_fresh (h : Hasher) (envs : Nat → Env) (us : List StaffEntry) :
    ∀ (i : Nat) (s : Store), us.Pairwise (fun a b => a.email ≠ b.email) →
      (∀ d ∈ us, ∀ v ∈ s.users, v.email ≠ d.email) →
      (seedLoop h envs i us s).2 = none →
      ∃ added, (seedLoop h envs i us s).1.users = s.users ++ added ∧
        added.map (fun v => (v.email, v.role, v.password))
          = us.map (fun d => (d.email, d.role, h.hash d.password)) := by
  induction us with
  | nil => intro i s _ _ _; exact ⟨[], by simp [seedLoop]⟩
  | cons u us ih =>
    intro i s hpw hfree hdone
    cases hone : seedOne h (envs i) s u with
    | error e => simp [seedLoop, hone] at hdone
    | ok s' =>
      simp only [seedLoop, hone] at hdone ⊢
      rw [List.pairwise_cons] at hpw
      rcases seedOne_ok hone with ⟨_, v, hv, hve⟩ | ⟨_, rfl⟩
      · exact absurd hve (hfree u (by simp) v hv)
      · have hfree' : ∀ d ∈ us, ∀ v ∈ (s.users ++ [staffUser h (envs i) s u]), v.email ≠ d.email := by
          intro d hd v hv
          rcases List.mem_append.1 hv with hv | hv
          · exact hfree d (by simp [hd]) v hv
          · have : v = staffUser h (envs i) s u := by simpa using hv
            subst this
            exact hpw.1 d hd
        obtain ⟨added, ha, hm⟩ := ih (i + 1) _ hpw.2 hfree' hdone
        refine ⟨staffUser h (envs i) s u :: added, ?_, ?_⟩
        · simpa using ha
        · simp [hm, staffUser]

/-- After a completed loop over entries with pairwise distinct emails, the
account found for an entry whose email was not in the store before is the one
the loop created for it. -/
theorem seedLoop_creates (h : Hasher) (envs : Nat → Env) (us : List StaffEntry) :
    ∀ (i : Nat) (s : Store), us.Pairwise (fun a b => a.email ≠ b.email) →
      (seedLoop h envs i us s).2 = none →
      ∀ d ∈ us, (∀ v ∈ s.users, v.email ≠ d.email) →
      ∃ w, (seedLoop h envs i us s).1.users.find? (fun v => v.email == d.email) = some w ∧
        w.role = d.role ∧ w.password = h.hash d.password := by
  induction us with
  | nil => intro i s _ _ d hd; simp at hd
  | cons u us ih =>
    intro i s hpw hdone d hd hfree
    cases hone : seedOne h (envs i) s u with
    | error e => simp [seedLoop, hone] at hdone
    | ok s' =>
      simp only [seedLoop, hone] at hdone ⊢
      rw [List.pairwise_cons] at hpw
      rcases List.mem_cons.1 hd with rfl | hd'
      · rcases seedOne_ok hone with ⟨_, v, hv, hve⟩ | ⟨_, rfl⟩
        · exact absurd hve (hfree v hv)
        · obtain ⟨added, ha, _, _⟩ := seedLoop_extends h envs us (i + 1)
            { s with users := s.users ++ [staffUser h (envs i) s d], nextId := s.nextId + 1 }
          have hnew := find_email_append_fresh s.users (staffUser h (envs i) s d) hfree
          refine ⟨staffUser h (envs i) s d, ?_, rfl, rfl⟩
          rw [ha]
          exact find_email_append_left hnew
      · have hfree' : ∀ v ∈ s'.users, v.email ≠ d.email := by
          rcases seedOne_ok hone with ⟨rfl, _⟩ | ⟨_, rfl⟩
          · exact hfree
          · intro v hv
            rcases List.mem_append.1 hv with hv | hv
            · exact hfree v hv
            · have : v = staffUser h (envs i) s u := by simpa using hv
              subst this
              exact hpw.1 d hd'
        exact ih (i + 1) s' hpw.2 hdone d hd' hfree'

/-- C6: `seedDefaultStaff` completes when the store rejects nothing, and once
it has completed a second run leaves the store exactly as the first run left
it (no record created, no field of a record changed) and completes whenever
the store answers its lookups; from a store holding none of the five default
emails the records added are exactly five, one per default entry. -/
theorem seedDefaultStaff_idempotent (h₁ h₂ : Hasher) (envs₁ envs₂ : Nat → Env) (s : Store) :
    ((∀ j, (envs₁ j).readFails = false ∧ (envs₁ j).writeFails = false) →
      (seedDefaultStaff h₁ envs₁ s).2 = none) ∧
    ((seedDefaultStaff h₁ envs₁ s).2 = none →
      (seedDefaultStaff h₂ envs₂ (seedDefaultStaff h₁ envs₁ s).1).1
        = (seedDefaultStaff h₁ envs₁ s).1 ∧
      ((∀ j, (envs₂ j).readFails = false) →
        seedDefaultStaff h₂ envs₂ (seedDefaultStaff h₁ envs₁ s).1
          = ((seedDefaultStaff h₁ envs₁ s).1, none)) ∧
      ((∀ d ∈ defaultUsers, ∀ v ∈ s.users, v.email ≠ d.email) →
        ∃ added,
          (seedDefaultStaff h₂ envs₂ (seedDefaultStaff h₁ envs₁ s).1).1.users
            = s.users ++ added ∧
          added.length = 5 ∧
          added.map (fun v => (v.email, v.role))
            = defaultUsers.map (fun d => (d.email, d.role)))) := by
  refine ⟨fun hcalm => seedLoop_completes h₁ envs₁ defaultUsers hcalm 0 s, ?_⟩
  intro hdone
  have hcov := seedLoop_complete_covers h₁ envs₁ defaultUsers 0 s hdone
  have hnoop := seedLoop_present h₂ envs₂ defaultUsers 0 (seedDefaultStaff h₁ envs₁ s).1 hcov
  refine ⟨hnoop.1, hnoop.2, ?_⟩
  intro hfree
  obtain ⟨added, ha, hm⟩ :=
    seedLoop_fresh h₁ envs₁ defaultUsers 0 s defaultUsers_emails_distinct hfree hdone
  refine ⟨added, ?_, ?_, ?_⟩
  · have e : (seedDefaultStaff h₂ envs₂ (seedDefaultStaff h₁ envs₁ s).1).1
        = (seedDefaultStaff h₁ envs₁ s).1 := hnoop.1
    rw [e]
    exact ha
  · have hl := congrArg List.length hm
    simpa [defaultUsers] using hl
  · have hp := congrArg (List.map (fun t : String × Role × String => (t.1, t.2.1))) hm
    simpa [List.map_map, Function.comp_def] using hp

theorem seedDefaultStaff_idempotent_witness :
    (seedDefaultStaff tagHasher (fun _ => calm) emptyStore).2 = none ∧
    seedDefaultStaff tagHasher (fun _ => calm)
        (seedDefaultStaff tagHasher (fun _ => calm) emptyStore).1
      = ((seedDefaultStaff tagHasher (fun _ => calm) emptyStore).1, none) ∧
    (seedDefaultStaff tagHasher (fun _ => calm) emptyStore).1.users.length = 5 :=
  ⟨by rfl,
   ((seedDefaultStaff_idempotent tagHasher tagHasher (fun _ => calm) (fun _ => calm) emptyStore).2
      (by rfl)).2.1 (fun _ => rfl),
   by rfl⟩

/-- C7, as stated, fails: when the admin account already exists with a rotated
password, `seedDefaultStaff` completes without touching it, and the store holds
no user with the admin's email whose role is admin and whose hash verifies the
initial password. -/
theorem seed_rotated_password_counterexample :
    (seedDefaultStaff tagHasher (fun _ => calm) rotatedAdminStore).2 = none ∧
    (∀ p, tagHasher.compare p (tagHasher.hash p) = true) ∧
    ¬ ∃ u ∈ (seedDefaultStaff tagHasher (fun _ => calm) rotatedAdminStore).1.users,
        u.email = "admin@jayadedental.com" ∧ u.role = Role.admin ∧
        tagHasher.compare "Admin@123" u.password = true := by
  refine ⟨by rfl, by simp [tagHasher], ?_⟩
  decide

/-- C7, amended: `seedDefaultStaff` completes when the store rejects nothing,
and after it has completed, for each of the five default entries the store
holds a user with the entry's email; an account that held the email before the
run is left as it was, and when no user held the email before the run the
account found for it carries the entry's role and a password hash that verifies
the entry's initial password, provided the hasher accepts a password against
its own digest. -/
theorem seedDefaultStaff_ensures_accounts (h : Hasher) (envs : Nat → Env) (s : Store) :
    ((∀ j, (envs j).readFails = false ∧ (envs j).writeFails = false) →
      (seedDefaultStaff h envs s).2 = none) ∧
    ((seedDefaultStaff h envs s).2 = none →
      ∀ d ∈ defaultUsers,
        (∃ u ∈ (seedDefaultStaff h envs s).1.users, u.email = d.email) ∧
        (∀ v, s.users.find? (fun u => u.email == d.email) = some v →
          (seedDefaultStaff h envs s).1.users.find? (fun u => u.email == d.email) = some v) ∧
        ((∀ v ∈ s.users, v.email ≠ d.email) → (∀ p, h.compare p (h.hash p) = true) →
          ∃ w,
            (seedDefaultStaff h envs s).1.users.find? (fun u => u.email == d.email) = some w ∧
            w.role = d.role ∧ h.compare d.password w.password = true)) := by
  refine ⟨fun hcalm => seedLoop_completes h envs defaultUsers hcalm 0 s, ?_⟩
  intro hdone d hd
  refine ⟨seedLoop_complete_covers h envs defaultUsers 0 s hdone d hd, ?_, ?_⟩
  · intro v hv
    obtain ⟨added, ha, _, _⟩ := seedLoop_extends h envs defaultUsers 0 s
    have e : (seedDefaultStaff h envs s).1.users = s.users ++ added := ha
    rw [e]
    exact find_email_append_left hv
  · intro hfree hver
    obtain ⟨w, hw, hrole, hpass⟩ :=
      seedLoop_creates h envs defaultUsers 0 s defaultUsers_emails_distinct hdone d hd hfree
    exact ⟨w, hw, hrole, by rw [hpass]; exact hver _⟩

theorem seedDefaultStaff_ensures_accounts_witness :
    ∃ w,
      (seedDefaultStaff tagHasher (fun _ => calm) emptyStore).1.users.find?
          (fun u => u.email == "admin@jayadedental.com") = some w ∧
      w.role = Role.admin ∧ tagHasher.compare "Admin@123" w.password = true :=
  (((seedDefaultStaff_ensures_accounts tagHasher (fun _ => calm) emptyStore).2 (by rfl)
      { name := "Clinic Admin", email := "admin@jayadedental.com", phone := "+91 90000 00005",
        role := .admin, password := "Admin@123" }
      (by simp [defaultUsers])).2.2
    (by simp [emptyStore]) (by simp [tagHasher]))

end Clinic
